import Mathlib

/-!
Shallow embedding of the postgres-upgrader repository (Python sources under
`src/postgres_upgrader/`) and verification of the frozen claims about it.

Python strings are modelled as `List Char`; machine-unbounded Python integers
as `Int`/`Nat`; functions that may raise return `Except String _` or a
`PyOutcome`; the Docker daemon, subprocesses and the filesystem are modelled
as explicit oracles recording every externally visible effect in a trace.
-/

namespace PostgresUpgrader

/-- Python string, modelled as a list of characters. -/
abbrev PyStr := List Char

/-- Python `s.rstrip("/")`: remove all trailing `'/'` characters. -/
def rstripSlash (s : PyStr) : PyStr :=
  (s.reverse.dropWhile (fun c => c == '/')).reverse

/-- The canonical PostgreSQL data directory constant compared against in
`ServiceConfig.is_configured_for_postgres_upgrade`. -/
def defaultPostgresDataDir : PyStr := "/var/lib/postgresql/data".data

/-- Message of the fatal exception raised by
`ServiceConfig.is_configured_for_postgres_upgrade` when the backup path is
the default PostgreSQL data directory. -/
def dataDirErrorMsg : String :=
  "You cannot use the default PostgreSQL data directory as a backup location. It will remove all existing data!"

/-- Volume mount record from `compose_inspector.py` (class `VolumeMount`). -/
structure VolumeMount where
  name : PyStr
  path : PyStr
  raw : PyStr
  resolved_name : PyStr
deriving DecidableEq, Repr

/-- Service configuration from `compose_inspector.py` (class `ServiceConfig`),
restricted to the fields used by volume-selection validation. -/
structure ServiceConfig where
  name : PyStr
  selected_main_volume : Option VolumeMount
  selected_backup_volume : Option VolumeMount
deriving DecidableEq, Repr

/-- Embedding of `ServiceConfig.is_configured_for_postgres_upgrade`
(`compose_inspector.py`, lines 110-146).  The Python method returns a bool
but can also raise; we model it as `Except String Bool`, `.error` standing
for a raised exception. -/
def ServiceConfig.is_configured_for_postgres_upgrade (s : ServiceConfig) :
    Except String Bool :=
  match s.selected_main_volume, s.selected_backup_volume with
  | none, _ => .ok false
  | some _, none => .ok false
  | some mv, some bv =>
    if mv.name = bv.name then .ok false
    else
      let main_path := rstripSlash mv.path
      let backup_path := rstripSlash bv.path
      if backup_path = defaultPostgresDataDir then
        .error dataDirErrorMsg
      else if (main_path ++ ['/']) <+: backup_path ∨ backup_path = main_path then
        .ok false
      else
        .ok true

section RstripLemmas

/-- Removing trailing slashes from a list whose last element is not a slash
is the identity. -/
theorem rstripSlash_concat_ne (l : PyStr) (c : Char) (h : ¬ c = '/') :
    rstripSlash (l ++ [c]) = l ++ [c] := by
  have hc : (c == '/') = false := by simpa using h
  unfold rstripSlash
  rw [List.reverse_append]
  simp [List.dropWhile, hc]

/-- Every Python string is its slash-stripped form followed by some run of
slashes. -/
theorem rstripSlash_decomp (l : PyStr) :
    ∃ n, l = rstripSlash l ++ List.replicate n '/' := by
  have hmem : ∀ (x : Char), x ∈ l.reverse.takeWhile (fun c => c == '/') → x = '/' := by
    intro x hx
    simpa using List.mem_takeWhile_imp hx
  obtain ⟨n, hn⟩ : ∃ n, l.reverse.takeWhile (fun c => c == '/') = List.replicate n '/' :=
    ⟨_, List.eq_replicate_of_mem hmem⟩
  refine ⟨n, ?_⟩
  conv_lhs => rw [← List.reverse_reverse l,
    ← List.takeWhile_append_dropWhile (p := fun c => c == '/') (l := l.reverse)]
  rw [hn, List.reverse_append, List.reverse_replicate]
  rfl

/-- The slash-stripped form is never longer than the original. -/
theorem rstripSlash_length_le (l : PyStr) : (rstripSlash l).length ≤ l.length := by
  unfold rstripSlash
  calc ((l.reverse.dropWhile (fun c => c == '/')).reverse).length
      = (l.reverse.dropWhile (fun c => c == '/')).length := by simp
    _ ≤ l.reverse.length := (List.dropWhile_sublist _).length_le
    _ = l.length := by simp

/-- Appending a slash to the stripped form yields something that starts every
extension of the original string by a slash-led suffix. -/
theorem rstripSlash_slash_prefix (p : PyStr) (s : PyStr) :
    (rstripSlash p ++ ['/']) <+: (p ++ '/' :: s) := by
  obtain ⟨n, hn⟩ := rstripSlash_decomp p
  cases n with
  | zero =>
    refine ⟨s, ?_⟩
    simp at hn
    rw [← hn]
    simp
  | succ m =>
    refine ⟨List.replicate m '/' ++ '/' :: s, ?_⟩
    conv_rhs => rw [hn]
    simp [List.replicate_succ]

end RstripLemmas

/-- Unfolding of the validation once both volumes are selected and the names
differ: the remaining checks are the data-directory guard and the
nested/equal-path guard. -/
theorem isConfigured_of_selected (s : ServiceConfig) (mv bv : VolumeMount)
    (hm : s.selected_main_volume = some mv)
    (hb : s.selected_backup_volume = some bv)
    (hname : ¬ mv.name = bv.name) :
    s.is_configured_for_postgres_upgrade =
      (if rstripSlash bv.path = defaultPostgresDataDir then
        .error dataDirErrorMsg
      else if (rstripSlash mv.path ++ ['/']) <+: rstripSlash bv.path
          ∨ rstripSlash bv.path = rstripSlash mv.path then
        .ok false
      else .ok true) := by
  unfold ServiceConfig.is_configured_for_postgres_upgrade
  rw [hm, hb]
  simp [hname]

/-- Claim C1, counterexample: a selection whose backup container path is
exactly the default PostgreSQL data directory but whose two volume names are
equal makes validation return `False` (the same-volume check fires first);
the fatal default-data-directory error is not raised, contradicting
"regardless of the values of all other fields". -/
theorem claim1_counterexample :
    (ServiceConfig.is_configured_for_postgres_upgrade
      { name := "db".data
        selected_main_volume := some
          { name := "database".data, path := "/data".data
            raw := "database:/data".data, resolved_name := "proj_database".data }
        selected_backup_volume := some
          { name := "database".data, path := "/var/lib/postgresql/data".data
            raw := "database:/var/lib/postgresql/data".data
            resolved_name := "proj_database".data } }
      = .ok false)
    ∧ rstripSlash "/var/lib/postgresql/data".data = defaultPostgresDataDir := by
  constructor
  · rfl
  · rfl

/-- Claim C1, amended: whenever both volumes are selected and their names
differ, a backup container path that strips to the default PostgreSQL data
directory makes validation raise the fatal default-data-directory error,
regardless of all remaining fields; if a volume is unselected or the names
are equal, validation instead returns `False` without raising. -/
theorem claim1_dataDir_always_raises (s : ServiceConfig) (mv bv : VolumeMount)
    (hm : s.selected_main_volume = some mv)
    (hb : s.selected_backup_volume = some bv)
    (hname : ¬ mv.name = bv.name)
    (hpath : rstripSlash bv.path = defaultPostgresDataDir) :
    s.is_configured_for_postgres_upgrade = .error dataDirErrorMsg := by
  rw [isConfigured_of_selected s mv bv hm hb hname]
  simp [hpath]

/-- Witness for C1's amended theorem at a concrete selection. -/
theorem claim1_dataDir_always_raises_witness :
    (¬ ("database".data : PyStr) = "backups".data)
    ∧ rstripSlash "/var/lib/postgresql/data/".data = defaultPostgresDataDir
    ∧ ServiceConfig.is_configured_for_postgres_upgrade
        { name := "db".data
          selected_main_volume := some
            { name := "database".data, path := "/data".data
              raw := "database:/data".data, resolved_name := "proj_database".data }
          selected_backup_volume := some
            { name := "backups".data, path := "/var/lib/postgresql/data/".data
              raw := "backups:/var/lib/postgresql/data/".data
              resolved_name := "proj_backups".data } }
        = .error dataDirErrorMsg :=
  ⟨by decide, by decide,
    claim1_dataDir_always_raises _ _ _ rfl rfl (by decide) (by decide)⟩

/-- Appending the two characters `/x` to any path yields a path that is kept
unchanged by trailing-slash stripping. -/
theorem rstripSlash_append_slash_x (p : PyStr) :
    rstripSlash (p ++ ['/', 'x']) = p ++ ['/', 'x'] := by
  have h : p ++ ['/', 'x'] = (p ++ ['/']) ++ ['x'] := by simp
  rw [h, rstripSlash_concat_ne (p ++ ['/']) 'x' (by decide)]

/-- A path ending in the character `x` is never the default PostgreSQL data
directory. -/
theorem append_slash_x_ne_dataDir (p : PyStr) :
    ¬ (p ++ ['/', 'x']) = defaultPostgresDataDir := by
  intro h
  have h2 := congrArg List.getLast? h
  have h3 : (p ++ ['/', 'x']).getLast? = some 'x' := by
    have : p ++ ['/', 'x'] = (p ++ ['/']) ++ ['x'] := by simp
    rw [this, List.getLast?_concat]
  rw [h3] at h2
  have h4 : defaultPostgresDataDir.getLast? = some 'a' := by decide
  rw [h4] at h2
  simp at h2

/-- Claim C7, counterexample: for `p = "/var/lib/postgresql/data"`, the
selection `main = p ++ "/x"`, `backup = p` does not pass validation as the
claim asserts; instead the fatal default-data-directory exception is
raised. -/
theorem claim7_counterexample :
    ServiceConfig.is_configured_for_postgres_upgrade
      { name := "db".data
        selected_main_volume := some
          { name := "database".data
            path := "/var/lib/postgresql/data".data ++ "/x".data
            raw := [], resolved_name := "proj_database".data }
        selected_backup_volume := some
          { name := "backups".data, path := "/var/lib/postgresql/data".data
            raw := [], resolved_name := "proj_backups".data } }
      = .error dataDirErrorMsg := by rfl

/-- Claim C7, amended: with both volumes selected, validation strips trailing
`/` from both paths and then: rejects identical names; raises the fatal
default-data-directory error whenever the stripped backup path equals
`/var/lib/postgresql/data` (this case never passes or merely returns
`False`); rejects equal stripped paths (hence two empty paths) and backup
paths nested under `mainPath + "/"`; and accepts everything else.  For all
paths `p`, `main = p, backup = p ++ "/x"` is rejected, and
`main = p ++ "/x", backup = p` is accepted provided the stripped `p` is not
the default data directory. -/
theorem claim7_validation_algorithm :
    (∀ (s : ServiceConfig) (mv bv : VolumeMount),
      s.selected_main_volume = some mv → s.selected_backup_volume = some bv →
      mv.name = bv.name →
      s.is_configured_for_postgres_upgrade = .ok false)
    ∧ (∀ (s : ServiceConfig) (mv bv : VolumeMount),
      s.selected_main_volume = some mv → s.selected_backup_volume = some bv →
      ¬ mv.name = bv.name →
      ¬ rstripSlash bv.path = defaultPostgresDataDir →
      rstripSlash bv.path = rstripSlash mv.path →
      s.is_configured_for_postgres_upgrade = .ok false)
    ∧ (∀ (s : ServiceConfig) (mv bv : VolumeMount),
      s.selected_main_volume = some mv → s.selected_backup_volume = some bv →
      ¬ mv.name = bv.name →
      ¬ rstripSlash bv.path = defaultPostgresDataDir →
      ¬ (rstripSlash mv.path ++ ['/']) <+: rstripSlash bv.path →
      ¬ rstripSlash bv.path = rstripSlash mv.path →
      s.is_configured_for_postgres_upgrade = .ok true)
    ∧ (∀ (s : ServiceConfig) (mv bv : VolumeMount) (p : PyStr),
      s.selected_main_volume = some mv → s.selected_backup_volume = some bv →
      ¬ mv.name = bv.name →
      mv.path = p → bv.path = p ++ ['/', 'x'] →
      s.is_configured_for_postgres_upgrade = .ok false)
    ∧ (∀ (s : ServiceConfig) (mv bv : VolumeMount) (p : PyStr),
      s.selected_main_volume = some mv → s.selected_backup_volume = some bv →
      ¬ mv.name = bv.name →
      mv.path = p ++ ['/', 'x'] → bv.path = p →
      ¬ rstripSlash p = defaultPostgresDataDir →
      s.is_configured_for_postgres_upgrade = .ok true) := by
  refine ⟨?_, ?_, ?_, ?_, ?_⟩
  · intro s mv bv hm hb hname
    unfold ServiceConfig.is_configured_for_postgres_upgrade
    rw [hm, hb]
    simp [hname]
  · intro s mv bv hm hb hname hdd heq
    rw [isConfigured_of_selected s mv bv hm hb hname]
    rw [heq] at hdd ⊢
    simp [hdd]
  · intro s mv bv hm hb hname hdd hpre heq
    rw [isConfigured_of_selected s mv bv hm hb hname]
    simp [hdd, hpre, heq]
  · intro s mv bv p hm hb hname hmp hbp
    rw [isConfigured_of_selected s mv bv hm hb hname, hmp, hbp,
      rstripSlash_append_slash_x]
    have hdd := append_slash_x_ne_dataDir p
    have hpre : (rstripSlash p ++ ['/']) <+: (p ++ ['/', 'x']) :=
      rstripSlash_slash_prefix p ['x']
    simp [hdd, hpre]
  · intro s mv bv p hm hb hname hmp hbp hdd
    rw [isConfigured_of_selected s mv bv hm hb hname, hmp, hbp,
      rstripSlash_append_slash_x]
    have hlen : (rstripSlash p).length ≤ p.length := rstripSlash_length_le p
    have hpre : ¬ (p ++ ['/', 'x', '/']) <+: rstripSlash p := by
      intro h
      have := h.length_le
      simp at this
      omega
    have heq : ¬ rstripSlash p = p ++ ['/', 'x'] := by
      intro h
      have := congrArg List.length h
      simp at this
      omega
    simp [hdd, hpre, heq]

/-- Witness for C7's amended theorem: the parent-backup case
`main = "/data/x"`, `backup = "/data"` passes validation. -/
theorem claim7_validation_algorithm_witness :
    (¬ ("database".data : PyStr) = "backups".data)
    ∧ ("/data/x".data : PyStr) = "/data".data ++ ['/', 'x']
    ∧ ¬ rstripSlash "/data".data = defaultPostgresDataDir
    ∧ ServiceConfig.is_configured_for_postgres_upgrade
        { name := "db".data
          selected_main_volume := some
            { name := "database".data, path := "/data/x".data
              raw := [], resolved_name := "proj_database".data }
          selected_backup_volume := some
            { name := "backups".data, path := "/data".data
              raw := [], resolved_name := "proj_backups".data } }
        = .ok true :=
  ⟨by decide, by decide, by decide,
    claim7_validation_algorithm.2.2.2.2 _ _ _ ("/data".data) rfl rfl
      (by decide) (by decide) rfl (by decide)⟩

/-- Abstract Docker container handle. -/
abbrev ContainerId := Nat

/-- Externally visible effects of one run of
`DockerManager.verify_backup_volume_mounted` (`docker.py`, lines 242-309).
`healthCheck` records a `container.reload()` plus
`_check_backup_volume_health` round (an exception during either is folded
into a `false` result, as the Python `except Exception: pass` does);
`sleepCall` a `time.sleep(sleep)`; `reconnect` a `_force_volume_reconnect`
attempt; `stopService`/`startService` the stop → up escalation. -/
inductive MountEvent where
  | healthCheck (attempt : Nat) (c : ContainerId) (healthy : Bool)
  | sleepCall (attempt : Nat)
  | reconnect (attempt : Nat) (c : ContainerId)
  | stopService (attempt : Nat)
  | startService (attempt : Nat) (c : ContainerId)
deriving DecidableEq, Repr

/-- Outcome of the `stop_service_container` / `start_service_container`
escalation: success with the fresh container, a
`subprocess.CalledProcessError` (caught by the inner handler), or any other
exception (which propagates out of the verifier). -/
inductive RestartOutcome where
  | ok (c : ContainerId)
  | calledProcessError
  | raisedError (msg : String)
deriving DecidableEq, Repr

/-- Oracle for the Docker daemon during mount verification: the result of
the volume health check per container and attempt, whether the lightweight
`_force_volume_reconnect` completes without raising, and the outcome of the
container-restart escalation. -/
structure MountEnv where
  healthy : ContainerId → Nat → Bool
  reconnectOk : Bool
  restart : RestartOutcome

/-- Termination of a Python call: normal return or a raised exception. -/
inductive PyOutcome where
  | ret
  | raised (msg : String)
deriving DecidableEq, Repr

/-- Message of the exception raised when the backup volume never mounts. -/
def mountFailureMsg : String :=
  "Backup volume failed to mount properly after container restart. This may be a Docker Compose volume mounting issue."

/-- Embedding of the retry loop of `verify_backup_volume_mounted`
(`docker.py`, lines 276-309).  `fuel` is the number of remaining loop
iterations (`maxRetries - attempt`), `attempt` the current 0-based loop
index, `c` the current container handle.  Returns the Python outcome and
the trace of externally visible events. -/
def mountLoop (env : MountEnv) (maxRetries : Nat) :
    Nat → Nat → ContainerId → PyOutcome × List MountEvent
  | 0, _, _ => (.ret, [])
  | fuel + 1, attempt, c =>
    let h := env.healthy c attempt
    if h then (.ret, [.healthCheck attempt c h])
    else if attempt = maxRetries / 2 then
      if env.reconnectOk then
        -- lightweight reconnection succeeded: sleep and continue
        let r := mountLoop env maxRetries fuel (attempt + 1) c
        (r.1, .healthCheck attempt c h :: .reconnect attempt c
          :: .sleepCall attempt :: r.2)
      else
        -- _force_volume_reconnect raised: fall back to container restart
        match env.restart with
        | .ok c' =>
          let r := mountLoop env maxRetries fuel (attempt + 1) c'
          (r.1, .healthCheck attempt c h :: .reconnect attempt c
            :: .stopService attempt :: .startService attempt c'
            :: .sleepCall attempt :: r.2)
        | .calledProcessError =>
          -- restart failed with CalledProcessError: continue with the
          -- remaining retries (sleep-or-raise branch below)
          if attempt < maxRetries - 1 then
            let r := mountLoop env maxRetries fuel (attempt + 1) c
            (r.1, .healthCheck attempt c h :: .reconnect attempt c
              :: .stopService attempt :: .sleepCall attempt :: r.2)
          else
            (.raised mountFailureMsg,
              [.healthCheck attempt c h, .reconnect attempt c,
                .stopService attempt])
        | .raisedError msg =>
          (.raised msg,
            [.healthCheck attempt c h, .reconnect attempt c,
              .stopService attempt])
    else
      if attempt < maxRetries - 1 then
        let r := mountLoop env maxRetries fuel (attempt + 1) c
        (r.1, .healthCheck attempt c h :: .sleepCall attempt :: r.2)
      else
        (.raised mountFailureMsg, [.healthCheck attempt c h])

/-- Embedding of `DockerManager.verify_backup_volume_mounted`
(`docker.py`, lines 242-309): configuration validation, backup-volume
presence check, then the bounded retry loop with
`max_retries = timeout // sleep`. -/
def verify_backup_volume_mounted (s : ServiceConfig) (env : MountEnv)
    (container : ContainerId) (sleep timeout : Nat) :
    PyOutcome × List MountEvent :=
  match s.is_configured_for_postgres_upgrade with
  | .error msg => (.raised msg, [])
  | .ok false =>
    (.raised "Service must have selected volumes for PostgreSQL upgrade", [])
  | .ok true =>
    match s.selected_backup_volume with
    | none => (.raised "Backup directory not found in configuration", [])
    | some bv =>
      if bv.path = [] then
        (.raised "Backup directory not found in configuration", [])
      else
        let max_retries := timeout / sleep
        mountLoop env max_retries max_retries 0 container

/-- Predicate selecting health-check events. -/
def MountEvent.isCheck : MountEvent → Bool
  | .healthCheck _ _ _ => true
  | _ => false

/-- Predicate selecting sleep events. -/
def MountEvent.isSleepEv : MountEvent → Bool
  | .sleepCall _ => true
  | _ => false

/-- Predicate selecting lightweight-reconnection events. -/
def MountEvent.isReconnectEv : MountEvent → Bool
  | .reconnect _ _ => true
  | _ => false

/-- Predicate selecting container-restart escalation events. -/
def MountEvent.isEscalationEv : MountEvent → Bool
  | .stopService _ => true
  | .startService _ _ => true
  | _ => false

/-- Predicate selecting remediation events of either tier. -/
def MountEvent.isRemediationEv (e : MountEvent) : Bool :=
  e.isReconnectEv || e.isEscalationEv

/-- Number of health-check attempts recorded in a trace. -/
def countChecks (evs : List MountEvent) : Nat :=
  (evs.filter MountEvent.isCheck).length

/-- Number of sleep calls recorded in a trace. -/
def countSleeps (evs : List MountEvent) : Nat :=
  (evs.filter MountEvent.isSleepEv).length

section MountLemmas

variable (env : MountEnv) (m : Nat)

/-- A successful health check returns immediately: no further events. -/
theorem mountLoop_healthy (fuel a : Nat) (c : ContainerId)
    (h : env.healthy c a = true) :
    mountLoop env m (fuel + 1) a c = (.ret, [.healthCheck a c true]) := by
  unfold mountLoop
  simp [h]

/-- Past the halfway attempt the loop never remediates again, and every
remaining health check happens at a later attempt on the same container. -/
theorem mountLoop_tail_shape :
    ∀ (fuel a : Nat) (c : ContainerId), m / 2 < a →
      (∀ e ∈ (mountLoop env m fuel a c).2, e.isRemediationEv = false)
      ∧ (∀ i c' b, MountEvent.healthCheck i c' b ∈ (mountLoop env m fuel a c).2 →
          a ≤ i ∧ c' = c) := by
  intro fuel
  induction fuel with
  | zero =>
    intro a c _
    simp [mountLoop]
  | succ f ih =>
    intro a c ha
    have hne : ¬ a = m / 2 := by omega
    unfold mountLoop
    cases hh : env.healthy c a with
    | true =>
      refine ⟨?_, ?_⟩
      · intro e he
        simp [hh] at he
        subst he
        rfl
      · intro i c' b hmem
        simp [hh] at hmem
        obtain ⟨h1, h2, _⟩ := hmem
        exact ⟨by omega, h2⟩
    | false =>
      by_cases hlast : a < m - 1
      · have htail := ih (a + 1) c (by omega)
        refine ⟨?_, ?_⟩
        · intro e he
          simp [hh, hne, hlast] at he
          rcases he with rfl | rfl | he
          · rfl
          · rfl
          · exact htail.1 e he
        · intro i c' b hmem
          simp [hh, hne, hlast] at hmem
          rcases hmem with ⟨h1, h2, _⟩ | hmem
          · exact ⟨by omega, h2⟩
          · have := htail.2 i c' b hmem
            exact ⟨by omega, this.2⟩
      · refine ⟨?_, ?_⟩
        · intro e he
          simp [hh, hne, hlast] at he
          subst he
          rfl
        · intro i c' b hmem
          simp [hh, hne, hlast] at hmem
          obtain ⟨h1, h2, _⟩ := hmem
          exact ⟨by omega, h2⟩

/-- Filtering with a stronger predicate factors through a weaker one. -/
theorem filter_factor {α : Type} (p q : α → Bool)
    (h : ∀ e, p e = true → q e = true) :
    ∀ l : List α, l.filter p = (l.filter q).filter p := by
  intro l
  induction l with
  | nil => rfl
  | cons x xs ih =>
    by_cases hp : p x = true
    · rw [List.filter_cons_of_pos hp, List.filter_cons_of_pos (h x hp),
        List.filter_cons_of_pos hp, ih]
    · have hp' : p x = false := by revert hp; cases p x <;> simp
      cases hq : q x with
      | true =>
        rw [List.filter_cons_of_neg (by simp [hp']),
          List.filter_cons_of_pos hq, List.filter_cons_of_neg (by simp [hp']), ih]
      | false =>
        rw [List.filter_cons_of_neg (by simp [hp']),
          List.filter_cons_of_neg (by simp [hq]), ih]

/-- Past the halfway attempt, with the health check failing on every later
attempt of the current container, the loop performs one check per remaining
iteration, sleeps between consecutive checks only, and raises the mount
failure on the final attempt (when at least one iteration remains). -/
theorem mountLoop_tail_counts (env : MountEnv) (m : Nat) :
    ∀ (fuel a : Nat) (c : ContainerId), m / 2 < a → a + fuel = m →
      (∀ i, env.healthy c i = false) →
      (fuel = 0 → mountLoop env m fuel a c = (.ret, []))
      ∧ (0 < fuel →
          (mountLoop env m fuel a c).1 = .raised mountFailureMsg
          ∧ countChecks (mountLoop env m fuel a c).2 = fuel
          ∧ countSleeps (mountLoop env m fuel a c).2 = fuel - 1) := by
  intro fuel
  induction fuel with
  | zero =>
    intro a c _ _ _
    exact ⟨fun _ => rfl, fun h => absurd h (by omega)⟩
  | succ f ih =>
    intro a c ha hm hfail
    refine ⟨fun h => absurd h (by omega), fun _ => ?_⟩
    have hne : ¬ a = m / 2 := by omega
    have hh := hfail a
    cases f with
    | zero =>
      have hlast : ¬ a < m - 1 := by omega
      unfold mountLoop
      simp [hh, hne, hlast, countChecks, countSleeps, MountEvent.isCheck,
        MountEvent.isSleepEv]
    | succ f' =>
      have hlast : a < m - 1 := by omega
      have htail := (ih (a + 1) c (by omega) (by omega) hfail).2 (by omega)
      have hstep : mountLoop env m (f' + 1 + 1) a c =
          ((mountLoop env m (f' + 1) (a + 1) c).1,
            .healthCheck a c false :: .sleepCall a
              :: (mountLoop env m (f' + 1) (a + 1) c).2) := by
        conv_lhs => rw [mountLoop]
        simp [hh, hne, hlast]
      rw [hstep]
      refine ⟨htail.1, ?_, ?_⟩
      · simp only [countChecks, List.filter_cons, MountEvent.isCheck,
          MountEvent.isSleepEv, List.length_cons, if_true, if_false,
          Bool.false_eq_true, reduceIte]
        have h2 := htail.2.1
        simp only [countChecks] at h2
        omega
      · simp only [countSleeps, List.filter_cons, MountEvent.isCheck,
          MountEvent.isSleepEv, List.length_cons, if_true, if_false,
          Bool.false_eq_true, reduceIte]
        have h2 := htail.2.2
        simp only [countSleeps] at h2
        omega

/-- With the health check failing everywhere and the lightweight
reconnection succeeding (so the container handle never changes), a run
started at or before the halfway attempt performs one health check per
remaining iteration, one fewer sleeps, and ends in the mount-failure
exception — provided the halfway attempt is not among the last two
iterations. -/
theorem mountLoop_head_counts (env : MountEnv) (m : Nat)
    (hrec : env.reconnectOk = true) (hhalf : m / 2 < m - 1) :
    ∀ (fuel a : Nat) (c : ContainerId), a ≤ m / 2 → a + fuel = m →
      (∀ i, env.healthy c i = false) →
      (mountLoop env m fuel a c).1 = .raised mountFailureMsg
      ∧ countChecks (mountLoop env m fuel a c).2 = fuel
      ∧ countSleeps (mountLoop env m fuel a c).2 = fuel - 1 := by
  intro fuel
  induction fuel with
  | zero =>
    intro a c ha hm _
    exact absurd hm (by omega)
  | succ f ih =>
    intro a c ha hm hfail
    have hh := hfail a
    by_cases hhw : a = m / 2
    · -- halfway attempt: lightweight reconnection, sleep, continue
      subst hhw
      have htail := (mountLoop_tail_counts env m f (m / 2 + 1) c (by omega)
        (by omega) hfail).2 (by omega)
      have hstep : mountLoop env m (f + 1) (m / 2) c =
          ((mountLoop env m f (m / 2 + 1) c).1,
            .healthCheck (m / 2) c false :: .reconnect (m / 2) c
              :: .sleepCall (m / 2)
              :: (mountLoop env m f (m / 2 + 1) c).2) := by
        conv_lhs => rw [mountLoop]
        simp [hh, hrec]
      rw [hstep]
      refine ⟨htail.1, ?_, ?_⟩
      · simp only [countChecks, List.filter_cons, MountEvent.isCheck,
          List.length_cons, Bool.false_eq_true, reduceIte]
        have h2 := htail.2.1
        simp only [countChecks] at h2
        omega
      · simp only [countSleeps, List.filter_cons, MountEvent.isSleepEv,
          List.length_cons, Bool.false_eq_true, reduceIte]
        have h2 := htail.2.2
        simp only [countSleeps] at h2
        omega
    · -- before the halfway attempt: plain sleep and retry
      have hlast : a < m - 1 := by omega
      have htail := ih (a + 1) c (by omega) (by omega) hfail
      have hstep : mountLoop env m (f + 1) a c =
          ((mountLoop env m f (a + 1) c).1,
            .healthCheck a c false :: .sleepCall a
              :: (mountLoop env m f (a + 1) c).2) := by
        conv_lhs => rw [mountLoop]
        simp [hh, hhw, hlast]
      rw [hstep]
      have hf : 0 < f := by omega
      refine ⟨htail.1, ?_, ?_⟩
      · simp only [countChecks, List.filter_cons, MountEvent.isCheck,
          List.length_cons, Bool.false_eq_true, reduceIte]
        have h2 := htail.2.1
        simp only [countChecks] at h2
        omega
      · simp only [countSleeps, List.filter_cons, MountEvent.isCheck,
          MountEvent.isSleepEv, List.length_cons, Bool.false_eq_true,
          reduceIte]
        have h2 := htail.2.2
        simp only [countSleeps] at h2
        omega

/-- A trace without remediation events filters to the empty list. -/
theorem filter_remed_nil (l : List MountEvent)
    (h : ∀ e ∈ l, e.isRemediationEv = false) :
    l.filter MountEvent.isRemediationEv = [] := by
  apply List.filter_eq_nil_iff.mpr
  intro e he
  simp [h e he]

/-- When the health check fails on every attempt up to the halfway index,
the remediation block runs exactly once, at the halfway attempt on the
original container: lightweight reconnection first, then — only if
reconnection raises — the stop/start escalation, whose events depend on the
restart outcome. -/
theorem mountLoop_remed_filter (env : MountEnv) (m : Nat) (hm1 : 1 ≤ m) :
    ∀ (fuel a : Nat) (c : ContainerId), a ≤ m / 2 → a + fuel = m →
      (∀ i, i ≤ m / 2 → env.healthy c i = false) →
      (mountLoop env m fuel a c).2.filter MountEvent.isRemediationEv =
        .reconnect (m / 2) c ::
          (if env.reconnectOk then []
           else .stopService (m / 2) ::
             (match env.restart with
              | .ok c' => [.startService (m / 2) c']
              | _ => ([] : List MountEvent))) := by
  intro fuel
  induction fuel with
  | zero =>
    intro a c ha hm _
    exact absurd hm (by omega)
  | succ f ih =>
    intro a c ha hm hfail
    have hh : env.healthy c a = false := hfail a ha
    by_cases hhw : a = m / 2
    · subst hhw
      cases hrec : env.reconnectOk with
      | true =>
        have hstep : mountLoop env m (f + 1) (m / 2) c =
            ((mountLoop env m f (m / 2 + 1) c).1,
              .healthCheck (m / 2) c false :: .reconnect (m / 2) c
                :: .sleepCall (m / 2)
                :: (mountLoop env m f (m / 2 + 1) c).2) := by
          conv_lhs => rw [mountLoop]
          simp [hh, hrec]
        rw [hstep]
        have htail := filter_remed_nil _
          (mountLoop_tail_shape env m f (m / 2 + 1) c (by omega)).1
        simp [List.filter_cons, MountEvent.isRemediationEv,
          MountEvent.isReconnectEv, MountEvent.isEscalationEv, htail]
      | false =>
        cases hres : env.restart with
        | ok c' =>
          have hstep : mountLoop env m (f + 1) (m / 2) c =
              ((mountLoop env m f (m / 2 + 1) c').1,
                .healthCheck (m / 2) c false :: .reconnect (m / 2) c
                  :: .stopService (m / 2) :: .startService (m / 2) c'
                  :: .sleepCall (m / 2)
                  :: (mountLoop env m f (m / 2 + 1) c').2) := by
            conv_lhs => rw [mountLoop]
            simp [hh, hrec, hres]
          rw [hstep]
          have htail := filter_remed_nil _
            (mountLoop_tail_shape env m f (m / 2 + 1) c' (by omega)).1
          simp [List.filter_cons, MountEvent.isRemediationEv,
            MountEvent.isReconnectEv, MountEvent.isEscalationEv, htail]
        | calledProcessError =>
          by_cases hlast : m / 2 < m - 1
          · have hstep : mountLoop env m (f + 1) (m / 2) c =
                ((mountLoop env m f (m / 2 + 1) c).1,
                  .healthCheck (m / 2) c false :: .reconnect (m / 2) c
                    :: .stopService (m / 2) :: .sleepCall (m / 2)
                    :: (mountLoop env m f (m / 2 + 1) c).2) := by
              conv_lhs => rw [mountLoop]
              simp [hh, hrec, hres, hlast]
            rw [hstep]
            have htail := filter_remed_nil _
              (mountLoop_tail_shape env m f (m / 2 + 1) c (by omega)).1
            simp [List.filter_cons, MountEvent.isRemediationEv,
              MountEvent.isReconnectEv, MountEvent.isEscalationEv, htail]
          · have hstep : mountLoop env m (f + 1) (m / 2) c =
                (.raised mountFailureMsg,
                  [.healthCheck (m / 2) c false, .reconnect (m / 2) c,
                    .stopService (m / 2)]) := by
              conv_lhs => rw [mountLoop]
              simp [hh, hrec, hres, hlast]
            rw [hstep]
            simp [List.filter_cons, MountEvent.isRemediationEv,
              MountEvent.isReconnectEv, MountEvent.isEscalationEv]
        | raisedError msg =>
          have hstep : mountLoop env m (f + 1) (m / 2) c =
              (.raised msg,
                [.healthCheck (m / 2) c false, .reconnect (m / 2) c,
                  .stopService (m / 2)]) := by
            conv_lhs => rw [mountLoop]
            simp [hh, hrec, hres]
          rw [hstep]
          simp [List.filter_cons, MountEvent.isRemediationEv,
            MountEvent.isReconnectEv, MountEvent.isEscalationEv]
    · have hlast : a < m - 1 := by omega
      have hstep : mountLoop env m (f + 1) a c =
          ((mountLoop env m f (a + 1) c).1,
            .healthCheck a c false :: .sleepCall a
              :: (mountLoop env m f (a + 1) c).2) := by
        conv_lhs => rw [mountLoop]
        simp [hh, hhw, hlast]
      rw [hstep]
      have hrest := ih (a + 1) c (by omega) (by omega) hfail
      simp [List.filter_cons, MountEvent.isRemediationEv,
        MountEvent.isReconnectEv, MountEvent.isEscalationEv, hrest]

/-- After a restart escalation at the halfway attempt, every health check on
a later attempt uses the fresh container handle. -/
theorem mountLoop_attrib (env : MountEnv) (m : Nat) (c' : ContainerId)
    (hrec : env.reconnectOk = false) (hres : env.restart = .ok c') :
    ∀ (fuel a : Nat) (c : ContainerId), a ≤ m / 2 → a + fuel = m →
      (∀ i, i ≤ m / 2 → env.healthy c i = false) →
      ∀ i c₁ b, MountEvent.healthCheck i c₁ b ∈ (mountLoop env m fuel a c).2 →
        m / 2 < i → c₁ = c' := by
  intro fuel
  induction fuel with
  | zero =>
    intro a c _ _ _ i c₁ b hmem _
    simp [mountLoop] at hmem
  | succ f ih =>
    intro a c ha hm hfail i c₁ b hmem hi
    have hh : env.healthy c a = false := hfail a ha
    by_cases hhw : a = m / 2
    · subst hhw
      have hstep : mountLoop env m (f + 1) (m / 2) c =
          ((mountLoop env m f (m / 2 + 1) c').1,
            .healthCheck (m / 2) c false :: .reconnect (m / 2) c
              :: .stopService (m / 2) :: .startService (m / 2) c'
              :: .sleepCall (m / 2)
              :: (mountLoop env m f (m / 2 + 1) c').2) := by
        conv_lhs => rw [mountLoop]
        simp [hh, hrec, hres]
      rw [hstep] at hmem
      simp at hmem
      rcases hmem with ⟨h1, _, _⟩ | hmem
      · omega
      · exact ((mountLoop_tail_shape env m f (m / 2 + 1) c' (by omega)).2
          i c₁ b hmem).2
    · have hlast : a < m - 1 := by omega
      have hstep : mountLoop env m (f + 1) a c =
          ((mountLoop env m f (a + 1) c).1,
            .healthCheck a c false :: .sleepCall a
              :: (mountLoop env m f (a + 1) c).2) := by
        conv_lhs => rw [mountLoop]
        simp [hh, hhw, hlast]
      rw [hstep] at hmem
      simp at hmem
      rcases hmem with ⟨h1, _, _⟩ | hmem
      · omega
      · exact ih (a + 1) c (by omega) (by omega) hfail i c₁ b hmem hi

/-- A validly configured service with a present, non-empty backup path runs
the bare retry loop with `max_retries = timeout // sleep`. -/
theorem verify_mounted_unfold (s : ServiceConfig) (env : MountEnv)
    (c0 : ContainerId) (sleep timeout : Nat) (bv : VolumeMount)
    (hconf : s.is_configured_for_postgres_upgrade = .ok true)
    (hbv : s.selected_backup_volume = some bv)
    (hbp : ¬ bv.path = []) :
    verify_backup_volume_mounted s env c0 sleep timeout =
      mountLoop env (timeout / sleep) (timeout / sleep) 0 c0 := by
  unfold verify_backup_volume_mounted
  rw [hconf, hbv]
  simp [hbp]

end MountLemmas

/-- A concrete valid service configuration shared by the mount-verifier
claims: distinct volumes, backup mounted at `/backups`. -/
def sampleConfig : ServiceConfig :=
  { name := "db".data
    selected_main_volume := some
      { name := "database".data, path := "/var/lib/postgresql/data".data
        raw := "database:/var/lib/postgresql/data".data
        resolved_name := "proj_database".data }
    selected_backup_volume := some
      { name := "backups".data, path := "/backups".data
        raw := "backups:/backups".data
        resolved_name := "proj_backups".data } }

/-- Environment in which the volume health check never succeeds and the
lightweight reconnection completes without raising. -/
def alwaysDownEnv : MountEnv :=
  { healthy := fun _ _ => false, reconnectOk := true, restart := .ok 7 }

/-- Environment in which the volume health check never succeeds, the
lightweight reconnection raises, and the restart escalation succeeds with a
fresh container. -/
def alwaysDownEscEnv : MountEnv :=
  { healthy := fun _ _ => false, reconnectOk := false, restart := .ok 7 }

/-- Claim C2, counterexample: with `sleep = 3, timeout = 3`
(`maxAttempts = 1`) and a permanently failing health check whose remediation
does not throw, `verify_backup_volume_mounted` returns normally (no
"Backup volume failed to mount properly" error is raised) and sleeps once,
not `maxAttempts - 1 = 0` times: on the halfway attempt — here the only and
final attempt — the remediation branch sleeps and `continue`s past the end
of the loop. -/
theorem claim2_counterexample :
    ((3 : Nat) / 3 = 1)
    ∧ (verify_backup_volume_mounted sampleConfig alwaysDownEnv 0 3 3).1 = .ret
    ∧ countSleeps
        (verify_backup_volume_mounted sampleConfig alwaysDownEnv 0 3 3).2 = 1 := by
  refine ⟨rfl, rfl, rfl⟩

/-- Claim C2, amended: in `verify_backup_volume_mounted` with
`maxAttempts = timeout // sleep ≥ 3`, if the volume health check fails on
every attempt and the lightweight remediation neither throws nor fixes
anything, exactly `maxAttempts` attempts are made, exactly
`maxAttempts - 1` sleeps occur, and the function raises an error whose
message contains "Backup volume failed to mount properly".  (For
`maxAttempts ≤ 2` the halfway attempt coincides with the final attempt and
the function instead returns normally after `maxAttempts` sleeps.) -/
theorem claim2_always_failing_retry (s : ServiceConfig) (env : MountEnv)
    (c0 : ContainerId) (sleep timeout : Nat) (bv : VolumeMount)
    (hconf : s.is_configured_for_postgres_upgrade = .ok true)
    (hbv : s.selected_backup_volume = some bv)
    (hbp : ¬ bv.path = [])
    (hfail : ∀ c i, env.healthy c i = false)
    (hrec : env.reconnectOk = true)
    (hm : 3 ≤ timeout / sleep) :
    (verify_backup_volume_mounted s env c0 sleep timeout).1
        = .raised mountFailureMsg
    ∧ countChecks (verify_backup_volume_mounted s env c0 sleep timeout).2
        = timeout / sleep
    ∧ countSleeps (verify_backup_volume_mounted s env c0 sleep timeout).2
        = timeout / sleep - 1
    ∧ ("Backup volume failed to mount properly".data) <+: mountFailureMsg.data := by
  rw [verify_mounted_unfold s env c0 sleep timeout bv hconf hbv hbp]
  have hhalf : (timeout / sleep) / 2 < timeout / sleep - 1 := by omega
  have h := mountLoop_head_counts env (timeout / sleep) hrec hhalf
    (timeout / sleep) 0 c0 (by omega) (by omega) (fun i => hfail c0 i)
  exact ⟨h.1, h.2.1, h.2.2,
    ⟨(" after container restart. This may be a Docker Compose volume mounting issue.").data,
      rfl⟩⟩

/-- Witness for C2's amended theorem at `sleep = 3, timeout = 30`. -/
theorem claim2_always_failing_retry_witness :
    ((3 : Nat) ≤ 30 / 3)
    ∧ ((verify_backup_volume_mounted sampleConfig alwaysDownEnv 0 3 30).1
        = .raised mountFailureMsg
      ∧ countChecks
          (verify_backup_volume_mounted sampleConfig alwaysDownEnv 0 3 30).2
          = 30 / 3
      ∧ countSleeps
          (verify_backup_volume_mounted sampleConfig alwaysDownEnv 0 3 30).2
          = 30 / 3 - 1
      ∧ ("Backup volume failed to mount properly".data) <+: mountFailureMsg.data) :=
  ⟨by decide,
    claim2_always_failing_retry sampleConfig alwaysDownEnv 0 3 30
      { name := "backups".data, path := "/backups".data
        raw := "backups:/backups".data
        resolved_name := "proj_backups".data }
      rfl rfl (by decide) (fun _ _ => rfl) rfl (by decide)⟩

/-- Claim C3, counterexample: with `sleep = 30, timeout = 3` we get
`maxAttempts = 0`, the loop body never runs, and the remediation branch is
entered on zero attempts — not on exactly one attempt as claimed for every
`(sleep, timeout)` pair. -/
theorem claim3_counterexample :
    ((3 : Nat) / 30 = 0)
    ∧ verify_backup_volume_mounted sampleConfig alwaysDownEnv 0 30 3 = (.ret, [])
    ∧ (verify_backup_volume_mounted sampleConfig alwaysDownEnv 0 30 3).2.filter
        MountEvent.isReconnectEv = [] := ⟨rfl, rfl, rfl⟩

/-- Claim C3, amended: in `verify_backup_volume_mounted` with
`maxAttempts = timeout // sleep ≥ 1`, if the health check fails on every
attempt up to and including index `maxAttempts // 2`, the remediation branch
is entered on exactly one attempt, namely index `maxAttempts // 2` on the
original container, and on no earlier attempt; and whenever a health check
succeeds the loop returns success immediately with no further attempts or
sleeps.  (With `maxAttempts = 0`, or when a health check succeeds at or
before the halfway attempt, remediation is never entered.) -/
theorem claim3_remediation_at_halfway (s : ServiceConfig) (env : MountEnv)
    (c0 : ContainerId) (sleep timeout : Nat) (bv : VolumeMount)
    (hconf : s.is_configured_for_postgres_upgrade = .ok true)
    (hbv : s.selected_backup_volume = some bv)
    (hbp : ¬ bv.path = [])
    (hm : 1 ≤ timeout / sleep)
    (hfail : ∀ i, i ≤ (timeout / sleep) / 2 → env.healthy c0 i = false) :
    (verify_backup_volume_mounted s env c0 sleep timeout).2.filter
        MountEvent.isReconnectEv
      = [.reconnect ((timeout / sleep) / 2) c0]
    ∧ (∀ (c : ContainerId) (a fuel : Nat), env.healthy c a = true →
        mountLoop env (timeout / sleep) (fuel + 1) a c
          = (.ret, [.healthCheck a c true])) := by
  rw [verify_mounted_unfold s env c0 sleep timeout bv hconf hbv hbp]
  constructor
  · have hsub : ∀ e : MountEvent,
        e.isReconnectEv = true → e.isRemediationEv = true := by
      intro e he
      simp [MountEvent.isRemediationEv, he]
    rw [filter_factor _ _ hsub,
      mountLoop_remed_filter env (timeout / sleep) (by omega)
        (timeout / sleep) 0 c0 (by omega) (by omega) hfail]
    cases hrec : env.reconnectOk with
    | true =>
      simp [List.filter_cons, MountEvent.isReconnectEv]
    | false =>
      cases hres : env.restart <;>
        simp [List.filter_cons, MountEvent.isReconnectEv]
  · intro c a fuel h
    exact mountLoop_healthy env (timeout / sleep) fuel a c h

/-- Witness for C3's amended theorem at `sleep = 3, timeout = 30`
(`maxAttempts = 10`, halfway attempt 5). -/
theorem claim3_remediation_at_halfway_witness :
    ((1 : Nat) ≤ 30 / 3)
    ∧ ((verify_backup_volume_mounted sampleConfig alwaysDownEnv 0 3 30).2.filter
          MountEvent.isReconnectEv
        = [.reconnect ((30 / 3 : Nat) / 2) 0]
      ∧ (∀ (c : ContainerId) (a fuel : Nat),
          alwaysDownEnv.healthy c a = true →
          mountLoop alwaysDownEnv (30 / 3) (fuel + 1) a c
            = (.ret, [.healthCheck a c true]))) :=
  ⟨by decide,
    claim3_remediation_at_halfway sampleConfig alwaysDownEnv 0 3 30
      { name := "backups".data, path := "/backups".data
        raw := "backups:/backups".data
        resolved_name := "proj_backups".data }
      rfl rfl (by decide) (by decide) (fun _ _ => rfl)⟩

/-- Claim C4, counterexample: with `maxAttempts = 4` (sleep 3, timeout 12),
a never-healthy volume and a lightweight remediation that succeeds without
fixing anything, the halfway reconnect runs at attempt 2, the very next
check (attempt 3) still fails, and yet no stop/restart escalation ever
happens — the run ends in the mount-failure exception without a restart,
contradicting "escalation if it fails to resolve the issue on the next
check". -/
theorem claim4_counterexample :
    (verify_backup_volume_mounted sampleConfig alwaysDownEnv 0 3 12).2.filter
        MountEvent.isReconnectEv = [.reconnect 2 0]
    ∧ MountEvent.healthCheck 3 0 false
        ∈ (verify_backup_volume_mounted sampleConfig alwaysDownEnv 0 3 12).2
    ∧ (verify_backup_volume_mounted sampleConfig alwaysDownEnv 0 3 12).2.filter
        MountEvent.isEscalationEv = []
    ∧ (verify_backup_volume_mounted sampleConfig alwaysDownEnv 0 3 12).1
        = .raised mountFailureMsg := by
  refine ⟨rfl, by decide, rfl, rfl⟩

/-- Claim C4, amended: at the halfway attempt the lightweight remediation
(filesystem sync plus Docker-API volume reload) is always tried first; the
service container is stopped and fully restarted only when that lightweight
step itself throws — if the lightweight step succeeds but fails to resolve
the issue on the next check, retrying simply continues and no escalation
ever occurs; after a restart, retrying continues with the new container
handle. -/
theorem claim4_escalation_policy (s : ServiceConfig) (env : MountEnv)
    (c0 : ContainerId) (sleep timeout : Nat) (bv : VolumeMount)
    (hconf : s.is_configured_for_postgres_upgrade = .ok true)
    (hbv : s.selected_backup_volume = some bv)
    (hbp : ¬ bv.path = [])
    (hm : 1 ≤ timeout / sleep)
    (hfail : ∀ i, i ≤ (timeout / sleep) / 2 → env.healthy c0 i = false) :
    ((verify_backup_volume_mounted s env c0 sleep timeout).2.filter
        MountEvent.isRemediationEv).head?
      = some (.reconnect ((timeout / sleep) / 2) c0)
    ∧ (env.reconnectOk = true →
        (verify_backup_volume_mounted s env c0 sleep timeout).2.filter
          MountEvent.isEscalationEv = [])
    ∧ (∀ c', env.reconnectOk = false → env.restart = .ok c' →
        (verify_backup_volume_mounted s env c0 sleep timeout).2.filter
            MountEvent.isEscalationEv
          = [.stopService ((timeout / sleep) / 2),
              .startService ((timeout / sleep) / 2) c']
        ∧ (∀ i c₁ b, MountEvent.healthCheck i c₁ b
              ∈ (verify_backup_volume_mounted s env c0 sleep timeout).2 →
            (timeout / sleep) / 2 < i → c₁ = c')) := by
  rw [verify_mounted_unfold s env c0 sleep timeout bv hconf hbv hbp]
  have hremf := mountLoop_remed_filter env (timeout / sleep) (by omega)
    (timeout / sleep) 0 c0 (by omega) (by omega) hfail
  have hsub : ∀ e : MountEvent,
      e.isEscalationEv = true → e.isRemediationEv = true := by
    intro e he
    simp [MountEvent.isRemediationEv, he]
  refine ⟨?_, ?_, ?_⟩
  · rw [hremf]
    rfl
  · intro hrec
    rw [filter_factor _ _ hsub, hremf]
    simp [hrec, List.filter_cons, MountEvent.isEscalationEv]
  · intro c' hrec hres
    constructor
    · rw [filter_factor _ _ hsub, hremf]
      simp [hrec, hres, List.filter_cons, MountEvent.isEscalationEv]
    · intro i c₁ b hmem hi
      exact mountLoop_attrib env (timeout / sleep) c' hrec hres
        (timeout / sleep) 0 c0 (by omega) (by omega) hfail i c₁ b hmem hi

/-- Witness for C4's amended theorem at `sleep = 3, timeout = 30` in the
environment whose lightweight remediation throws and whose restart yields
container 7. -/
theorem claim4_escalation_policy_witness :
    ((1 : Nat) ≤ 30 / 3)
    ∧ (((verify_backup_volume_mounted sampleConfig alwaysDownEscEnv 0 3 30).2.filter
          MountEvent.isRemediationEv).head?
        = some (.reconnect ((30 / 3 : Nat) / 2) 0)
      ∧ (alwaysDownEscEnv.reconnectOk = true →
          (verify_backup_volume_mounted sampleConfig alwaysDownEscEnv 0 3 30).2.filter
            MountEvent.isEscalationEv = [])
      ∧ (∀ c', alwaysDownEscEnv.reconnectOk = false →
          alwaysDownEscEnv.restart = .ok c' →
          (verify_backup_volume_mounted sampleConfig alwaysDownEscEnv 0 3 30).2.filter
              MountEvent.isEscalationEv
            = [.stopService ((30 / 3 : Nat) / 2),
                .startService ((30 / 3 : Nat) / 2) c']
          ∧ (∀ i c₁ b, MountEvent.healthCheck i c₁ b
                ∈ (verify_backup_volume_mounted sampleConfig alwaysDownEscEnv 0 3 30).2 →
              (30 / 3 : Nat) / 2 < i → c₁ = c'))) :=
  ⟨by decide,
    claim4_escalation_policy sampleConfig alwaysDownEscEnv 0 3 30
      { name := "backups".data, path := "/backups".data
        raw := "backups:/backups".data
        resolved_name := "proj_backups".data }
      rfl rfl (by decide) (by decide) (fun _ _ => rfl)⟩

/-- Database statistics dictionary produced by
`DockerManager.get_database_statistics` (`docker.py`, lines 618-707),
restricted to the numeric fields read by upgrade verification plus the size
string it echoes. -/
structure DatabaseStatistics where
  table_count : Int
  estimated_total_rows : Int
  database_size : String
deriving DecidableEq, Repr

/-- Backup statistics dictionary produced by
`DockerManager.verify_backup_integrity` (`docker.py`, lines 552-616). -/
structure BackupIntegrityStats where
  file_size_bytes : Int
  estimated_table_count : Int
  has_valid_header : Bool
  backup_path : String
deriving DecidableEq, Repr

/-- Result dictionary of `Postgres._verify_upgrade_success`
(`postgres.py`, lines 369-464). -/
structure UpgradeResult where
  success : Bool
  warnings : List String
  current_stats : DatabaseStatistics
  original_stats : DatabaseStatistics
  backup_stats : BackupIntegrityStats
  tables_restored : Int
  original_tables : Int
  estimated_rows : Int
  database_size : String
deriving DecidableEq, Repr

/-- Embedding of `Postgres._verify_upgrade_success` (`postgres.py`, lines
369-464).  The Python code mutates `verification_warnings` and `success`
through five independent checks; each mutation step is modelled by a fresh
`let` pair. -/
def verify_upgrade_success (original_stats current_stats : DatabaseStatistics)
    (backup_stats : BackupIntegrityStats) : UpgradeResult :=
  let w0 : List String := []
  let s0 : Bool := true
  let (w1, s1) :=
    if current_stats.table_count = 0 then
      (w0 ++ ["No tables found in restored database"], false)
    else (w0, s0)
  let original_tables := original_stats.table_count
  let current_tables := current_stats.table_count
  let (w2, s2) :=
    if 1 < (original_tables - current_tables).natAbs then
      (w1 ++ [s!"Table count mismatch. Original: {original_tables}, Current: {current_tables}"],
        false)
    else (w1, s1)
  let backup_table_count := backup_stats.estimated_table_count
  let (w3, s3) :=
    if 0 < original_tables ∧ backup_table_count = 0 then
      (w2 ++ ["Original database had tables but backup appears to contain no table definitions"],
        false)
    else (w2, s2)
  let backup_size := backup_stats.file_size_bytes
  let (w4, s4) :=
    if 0 < original_tables ∧ backup_size < 1000 then
      (w3 ++ [s!"Backup file is suspiciously small ({backup_size} bytes) for a database with {original_tables} tables"],
        false)
    else (w3, s3)
  let (w5, s5) :=
    if current_stats.estimated_total_rows = 0
        ∧ 0 < original_stats.estimated_total_rows then
      (w4 ++ ["No rows found in restored database, but original had data"],
        false)
    else (w4, s4)
  { success := s5
    warnings := w5
    current_stats := current_stats
    original_stats := original_stats
    backup_stats := backup_stats
    tables_restored := current_tables
    original_tables := original_tables
    estimated_rows := current_stats.estimated_total_rows
    database_size := current_stats.database_size }

/-- The warnings list is exactly the concatenation of the five independent
rule warnings, each present precisely when its rule triggers. -/
theorem verifyWarnings_spec (o c : DatabaseStatistics)
    (b : BackupIntegrityStats) :
    (verify_upgrade_success o c b).warnings =
      (if c.table_count = 0 then ["No tables found in restored database"]
        else [])
      ++ (if 1 < (o.table_count - c.table_count).natAbs then
            [s!"Table count mismatch. Original: {o.table_count}, Current: {c.table_count}"]
          else [])
      ++ (if 0 < o.table_count ∧ b.estimated_table_count = 0 then
            ["Original database had tables but backup appears to contain no table definitions"]
          else [])
      ++ (if 0 < o.table_count ∧ b.file_size_bytes < 1000 then
            [s!"Backup file is suspiciously small ({b.file_size_bytes} bytes) for a database with {o.table_count} tables"]
          else [])
      ++ (if c.estimated_total_rows = 0 ∧ 0 < o.estimated_total_rows then
            ["No rows found in restored database, but original had data"]
          else []) := by
  by_cases h1 : c.table_count = 0 <;>
  by_cases h2 : 1 < (o.table_count - c.table_count).natAbs <;>
  by_cases h3 : 0 < o.table_count ∧ b.estimated_table_count = 0 <;>
  by_cases h4 : 0 < o.table_count ∧ b.file_size_bytes < 1000 <;>
  by_cases h5 : c.estimated_total_rows = 0 ∧ 0 < o.estimated_total_rows <;>
  (unfold verify_upgrade_success
   dsimp only
   repeat' first
     | rw [if_pos h1] | rw [if_neg h1]
     | rw [if_pos h2] | rw [if_neg h2]
     | rw [if_pos h3] | rw [if_neg h3]
     | rw [if_pos h4] | rw [if_neg h4]
     | rw [if_pos h5] | rw [if_neg h5]) <;>
  simp [h1, h2, h3, h4, h5]

/-- The success flag is false exactly when one of the five rules triggers. -/
theorem verifySuccess_spec (o c : DatabaseStatistics)
    (b : BackupIntegrityStats) :
    (verify_upgrade_success o c b).success = false ↔
      (c.table_count = 0
        ∨ 1 < (o.table_count - c.table_count).natAbs
        ∨ (0 < o.table_count ∧ b.estimated_table_count = 0)
        ∨ (0 < o.table_count ∧ b.file_size_bytes < 1000)
        ∨ (c.estimated_total_rows = 0 ∧ 0 < o.estimated_total_rows)) := by
  by_cases h1 : c.table_count = 0 <;>
  by_cases h2 : 1 < (o.table_count - c.table_count).natAbs <;>
  by_cases h3 : 0 < o.table_count ∧ b.estimated_table_count = 0 <;>
  by_cases h4 : 0 < o.table_count ∧ b.file_size_bytes < 1000 <;>
  by_cases h5 : c.estimated_total_rows = 0 ∧ 0 < o.estimated_total_rows <;>
  (unfold verify_upgrade_success
   dsimp only
   repeat' first
     | rw [if_pos h1] | rw [if_neg h1]
     | rw [if_pos h2] | rw [if_neg h2]
     | rw [if_pos h3] | rw [if_neg h3]
     | rw [if_pos h4] | rw [if_neg h4]
     | rw [if_pos h5] | rw [if_neg h5]) <;>
  simp [h1, h2, h3, h4, h5]

/-- Claim C5: upgrade verification applies its five rules independently:
the warnings list is the concatenation of the per-rule warnings (each
present exactly when its rule triggers, none short-circuiting another) and
success is false exactly when some rule triggers; identical before/after
statistics with five tables and a 12345-byte five-table backup verify with
zero warnings, while table counts 5 vs 2 fail with the table-count-mismatch
warning. -/
theorem claim5_independent_rules :
    (∀ (o c : DatabaseStatistics) (b : BackupIntegrityStats),
      (verify_upgrade_success o c b).warnings =
        (if c.table_count = 0 then ["No tables found in restored database"]
          else [])
        ++ (if 1 < (o.table_count - c.table_count).natAbs then
              [s!"Table count mismatch. Original: {o.table_count}, Current: {c.table_count}"]
            else [])
        ++ (if 0 < o.table_count ∧ b.estimated_table_count = 0 then
              ["Original database had tables but backup appears to contain no table definitions"]
            else [])
        ++ (if 0 < o.table_count ∧ b.file_size_bytes < 1000 then
              [s!"Backup file is suspiciously small ({b.file_size_bytes} bytes) for a database with {o.table_count} tables"]
            else [])
        ++ (if c.estimated_total_rows = 0 ∧ 0 < o.estimated_total_rows then
              ["No rows found in restored database, but original had data"]
            else []))
    ∧ (∀ (o c : DatabaseStatistics) (b : BackupIntegrityStats),
      (verify_upgrade_success o c b).success = false ↔
        (c.table_count = 0
          ∨ 1 < (o.table_count - c.table_count).natAbs
          ∨ (0 < o.table_count ∧ b.estimated_table_count = 0)
          ∨ (0 < o.table_count ∧ b.file_size_bytes < 1000)
          ∨ (c.estimated_total_rows = 0 ∧ 0 < o.estimated_total_rows)))
    ∧ (∀ (rows : Int) (sz : String) (hv : Bool) (p : String),
      (verify_upgrade_success ⟨5, rows, sz⟩ ⟨5, rows, sz⟩
          ⟨12345, 5, hv, p⟩).success = true
      ∧ (verify_upgrade_success ⟨5, rows, sz⟩ ⟨5, rows, sz⟩
          ⟨12345, 5, hv, p⟩).warnings = [])
    ∧ (∀ (r1 r2 : Int) (s1 s2 : String) (b : BackupIntegrityStats),
      (verify_upgrade_success ⟨5, r1, s1⟩ ⟨2, r2, s2⟩ b).success = false
      ∧ "Table count mismatch. Original: 5, Current: 2"
          ∈ (verify_upgrade_success ⟨5, r1, s1⟩ ⟨2, r2, s2⟩ b).warnings) := by
  refine ⟨verifyWarnings_spec, verifySuccess_spec, ?_, ?_⟩
  · intro rows sz hv p
    have hw := verifyWarnings_spec ⟨5, rows, sz⟩ ⟨5, rows, sz⟩ ⟨12345, 5, hv, p⟩
    have hs := verifySuccess_spec ⟨5, rows, sz⟩ ⟨5, rows, sz⟩ ⟨12345, 5, hv, p⟩
    have hr : ¬ (rows = 0 ∧ 0 < rows) := by omega
    simp [hr] at hw hs
    exact ⟨hs, hw⟩
  · intro r1 r2 s1 s2 b
    have hw := verifyWarnings_spec ⟨5, r1, s1⟩ ⟨2, r2, s2⟩ b
    have hs := verifySuccess_spec ⟨5, r1, s1⟩ ⟨2, r2, s2⟩ b
    constructor
    · rw [hs]
      right
      left
      dsimp only
      decide
    · rw [hw]
      simp
      exact Or.inl (by decide)

/-- Claim C6: for every input triple of before-statistics,
after-statistics and backup-integrity values, upgrade verification is a
total function into `UpgradeResult` (the embedding never reaches a raising
state), and its success flag is false exactly when the returned warnings
list is non-empty: `success = warnings.isEmpty`. -/
theorem claim6_total_success_iff_no_warnings
    (o c : DatabaseStatistics) (b : BackupIntegrityStats) :
    (verify_upgrade_success o c b).success
      = (verify_upgrade_success o c b).warnings.isEmpty := by
  have hw := verifyWarnings_spec o c b
  have hs := verifySuccess_spec o c b
  cases hsucc : (verify_upgrade_success o c b).success with
  | false =>
    have hD := hs.mp hsucc
    suffices hne : (verify_upgrade_success o c b).warnings ≠ [] by
      cases hemp : (verify_upgrade_success o c b).warnings.isEmpty with
      | false => rfl
      | true => exact absurd (by simpa using hemp) hne
    intro hnil
    rw [hw] at hnil
    simp at hnil
    rcases hD with h | h | h | h | h <;> omega
  | true =>
    have hnD : ¬ (c.table_count = 0
        ∨ 1 < (o.table_count - c.table_count).natAbs
        ∨ (0 < o.table_count ∧ b.estimated_table_count = 0)
        ∨ (0 < o.table_count ∧ b.file_size_bytes < 1000)
        ∨ (c.estimated_total_rows = 0 ∧ 0 < o.estimated_total_rows)) := by
      intro hD
      have hfalse := hs.mpr hD
      rw [hsucc] at hfalse
      simp at hfalse
    rw [not_or, not_or, not_or, not_or] at hnD
    obtain ⟨h1, h2, h3, h4, h5⟩ := hnD
    rw [hw, if_neg h1, if_neg h2, if_neg h3, if_neg h4, if_neg h5]
    rfl

/-- Embedding of `DockerManager.find_container_by_service` (`docker.py`,
lines 468-504).  `containers` is the Docker daemon's answer to
`client.containers.list` filtered by the Compose service label and, when a
project name is known, the project label; the label filter itself is
computed for fidelity but the daemon is an oracle. -/
def find_container_by_service (initialized : Bool) (service_name : String)
    (project_name : Option String) (containers : List ContainerId) :
    Except String ContainerId :=
  if initialized = false then
    .error "DockerManager not properly initialized. Use as context manager."
  else
    let _labels := [s!"com.docker.compose.service={service_name}"]
      ++ (match project_name with
          | some p => [s!"com.docker.compose.project={p}"]
          | none => [])
    if containers.length = 0 then
      .error s!"No containers found for service {service_name}"
    else if 1 < containers.length then
      .error s!"Multiple containers found for service {service_name}"
    else
      .ok (containers.headD 0)

/-- Claim C8: container lookup fails with the not-found error on zero
matches, fails with the ambiguity error on more than one match, and returns
the container on exactly one match — it never picks among multiple
candidates. -/
theorem claim8_find_container_matches :
    (∀ (sname : String) (pname : Option String),
      find_container_by_service true sname pname []
        = .error s!"No containers found for service {sname}")
    ∧ (∀ (sname : String) (pname : Option String) (c1 c2 : ContainerId)
        (rest : List ContainerId),
      find_container_by_service true sname pname (c1 :: c2 :: rest)
        = .error s!"Multiple containers found for service {sname}")
    ∧ (∀ (sname : String) (pname : Option String) (c : ContainerId),
      find_container_by_service true sname pname [c] = .ok c) := by
  refine ⟨?_, ?_, ?_⟩
  · intro sname pname
    rfl
  · intro sname pname c1 c2 rest
    simp [find_container_by_service]
  · intro sname pname c
    rfl

/-- Docker-daemon oracle for one run of `verify_backup_integrity`: the
container lookup result, the exit status and parsed output of the `stat`
call, the exit status and decoded text of the `head` call, and the exit
status and parsed count of the `grep` call. -/
structure BackupFileEnv where
  lookup : Except String ContainerId
  statOk : Bool
  fileSize : Int
  headOk : Bool
  header : String
  grepOk : Bool
  grepCount : Int

/-- Embedding of `DockerManager.verify_backup_integrity` (`docker.py`,
lines 552-616).  Besides the result, it returns the list of commands
executed inside the container, so that read-only behaviour is a provable
property of the trace. -/
def verify_backup_integrity (initialized : Bool) (env : BackupFileEnv)
    (backup_path : String) :
    Except String BackupIntegrityStats × List (List String) :=
  if initialized = false then
    (.error "DockerManager not properly initialized. Use as context manager.",
      [])
  else
    match env.lookup with
    | .error e => (.error e, [])
    | .ok _container =>
      let statCmd := ["stat", "-c", "%s", backup_path]
      if env.statOk = false then
        (.error s!"Backup file {backup_path} not found or inaccessible",
          [statCmd])
      else if env.fileSize = 0 then
        (.error "Backup file is empty", [statCmd])
      else
        let headCmd := ["head", "-10", backup_path]
        if env.headOk = false then
          (.error "Cannot read backup file header", [statCmd, headCmd])
        else if ¬ ("PostgreSQL database dump".data <:+: env.header.data) then
          (.error "Backup file does not appear to be a valid PostgreSQL dump",
            [statCmd, headCmd])
        else
          let grepCmd := ["grep", "-c", "CREATE TABLE", backup_path]
          let table_count := if env.grepOk then env.grepCount else 0
          (.ok { file_size_bytes := env.fileSize
                 estimated_table_count := table_count
                 has_valid_header := true
                 backup_path := backup_path },
            [statCmd, headCmd, grepCmd])

/-- Claim C9: backup integrity verification fails with an error when the
file's size is zero or when the PostgreSQL dump header is absent from the
first lines; otherwise it returns statistics whose estimated table count is
the grep-counted number of `CREATE TABLE` occurrences (0 when the count
command fails); and every command it runs inside the container is one of
the read-only `stat`, `head`, `grep` — it never modifies the backup
file. -/
theorem claim9_integrity_read_only (env : BackupFileEnv) (path : String)
    (cont : ContainerId) (hl : env.lookup = .ok cont) :
    (env.statOk = true → env.fileSize = 0 →
      (verify_backup_integrity true env path).1 = .error "Backup file is empty")
    ∧ (env.statOk = true → ¬ env.fileSize = 0 → env.headOk = true →
        ¬ ("PostgreSQL database dump".data <:+: env.header.data) →
        (verify_backup_integrity true env path).1
          = .error "Backup file does not appear to be a valid PostgreSQL dump")
    ∧ (env.statOk = true → ¬ env.fileSize = 0 → env.headOk = true →
        ("PostgreSQL database dump".data <:+: env.header.data) →
        (verify_backup_integrity true env path).1
          = .ok { file_size_bytes := env.fileSize
                  estimated_table_count :=
                    if env.grepOk then env.grepCount else 0
                  has_valid_header := true
                  backup_path := path })
    ∧ (∀ cmd ∈ (verify_backup_integrity true env path).2,
        cmd.head? = some "stat" ∨ cmd.head? = some "head"
          ∨ cmd.head? = some "grep") := by
  refine ⟨?_, ?_, ?_, ?_⟩
  · intro hstat hsize
    simp [verify_backup_integrity, hl, hstat, hsize]
  · intro hstat hsize hhead hinfix
    simp [verify_backup_integrity, hl, hstat, hsize, hhead, hinfix]
  · intro hstat hsize hhead hinfix
    simp [verify_backup_integrity, hl, hstat, hsize, hhead, hinfix]
  · intro cmd hmem
    simp only [verify_backup_integrity, hl] at hmem
    repeat' split at hmem
    all_goals simp_all
    all_goals rcases hmem with rfl | rfl | rfl <;> simp

/-- Concrete backup-file environment: container found, 2048-byte file with a
valid dump header and five `CREATE TABLE` statements. -/
def sampleBackupEnv : BackupFileEnv :=
  { lookup := .ok 3
    statOk := true
    fileSize := 2048
    headOk := true
    header := "--\n-- PostgreSQL database dump\n--"
    grepOk := true
    grepCount := 5 }

/-- Witness for C9 at the concrete backup-file environment. -/
theorem claim9_integrity_read_only_witness :
    sampleBackupEnv.lookup = .ok 3
    ∧ sampleBackupEnv.statOk = true
    ∧ (¬ sampleBackupEnv.fileSize = 0)
    ∧ sampleBackupEnv.headOk = true
    ∧ ("PostgreSQL database dump".data <:+: sampleBackupEnv.header.data)
    ∧ (verify_backup_integrity true sampleBackupEnv "/backups/b.sql").1
        = .ok { file_size_bytes := 2048, estimated_table_count := 5,
                has_valid_header := true, backup_path := "/backups/b.sql" } :=
  ⟨rfl, rfl, by decide, rfl, by decide,
    (claim9_integrity_read_only sampleBackupEnv "/backups/b.sql" 3 rfl).2.2.1
      rfl (by decide) rfl (by decide)⟩

/-- Docker-daemon oracle for `check_container_status`: the container's
`State.Health.Status` string as seen on the reload of try number `t`
(1-based), and whether the `pg_isready` fallback exits with code 0. -/
structure ContainerStatusEnv where
  healthStatus : Nat → String
  pgIsReadyOk : Bool

/-- Embedding of the `while True` loop of
`DockerManager.check_container_status` (`docker.py`, lines 506-550).
`fuel` bounds the remaining iterations; it starts at `threshold`
(`timeout // sleep`), which the loop never exceeds because `tries`
increments towards it. -/
def check_container_status_go (env : ContainerStatusEnv) (threshold : Nat) :
    Nat → Nat → Bool
  | 0, tries =>
    if env.healthStatus tries = "healthy" then true
    else if env.pgIsReadyOk then true else false
  | fuel + 1, tries =>
    if env.healthStatus tries = "healthy" then true
    else if threshold ≤ tries then
      if env.pgIsReadyOk then true else false
    else
      check_container_status_go env threshold fuel (tries + 1)

/-- Embedding of `DockerManager.check_container_status` (`docker.py`, lines
506-550): health-status polling from `tries = 1`, with a single
`pg_isready` fallback once `tries >= timeout // sleep`. -/
def check_container_status (env : ContainerStatusEnv)
    (sleep timeout : Nat) : Bool :=
  check_container_status_go env (timeout / sleep) (timeout / sleep) 1

/-- Embedding of `DockerManager.start_service_container` (`docker.py`,
lines 216-240): `docker compose up -d`, container lookup, then a health
check whose boolean result is discarded (`_ = ...`), after which the
container handle is returned.  A `CalledProcessError` from the subprocess
is re-raised as the restart-failure message; an error from the lookup
propagates. -/
def start_service_container (service_name : String) (composeUpOk : Bool)
    (findResult : Except String ContainerId)
    (statusEnv : ContainerStatusEnv) : Except String ContainerId :=
  if composeUpOk = false then
    .error s!"Failed to restart service {service_name}: CalledProcessError"
  else
    match findResult with
    | .error e => .error e
    | .ok container =>
      let _ := check_container_status statusEnv 5 30
      .ok container

/-- Claim C10: `start_service_container` discards the health-check result —
whenever `docker compose up` and the container lookup succeed it returns
the container handle for every health-check environment, in particular for
one in which the container never reports healthy and `pg_isready` fails
(where `check_container_status` returns `false`). -/
theorem claim10_start_ignores_health_result :
    (∀ (sname : String) (c : ContainerId) (env : ContainerStatusEnv),
      start_service_container sname true (.ok c) env = .ok c)
    ∧ check_container_status ⟨fun _ => "unhealthy", false⟩ 5 30 = false := by
  constructor
  · intro sname c env
    rfl
  · rfl

end PostgresUpgrader
